import Mathlib

set_option maxRecDepth 10000

/-!
Shallow embedding of the mutual-fund analysis engine (utils/financials.ts and
friends).  JS `number` arithmetic is modelled by exact rationals (ℚ); JS `Date`
objects (always constructed at local midnight by parseAPIDate / parseISODate)
are modelled by (year, month, day) triples with month 0-based as in JS, and
`getTime()` comparisons/differences are modelled through a proleptic-Gregorian
day number (`rataDie`) scaled by 86400000 ms.  `Math.pow` with a non-integer
exponent and `Math.sqrt` are irrational in general, so the functions that use
them are parameterised by an explicit `powFn` / `sqrtFn`.  Option ℚ models
`number | null | undefined`, and `truthy` models JS truthiness of such a value.
-/

namespace MFA

/-- A calendar date as produced by parseAPIDate / parseISODate: local midnight,
`m` is the 0-based month exactly as in a JS Date. -/
structure HDate where
  y : Int
  m : Int
  d : Int
deriving DecidableEq, Repr

/-- Proleptic-Gregorian leap-year test (JS Date calendar). -/
def isLeap (y : Int) : Bool :=
  (y % 4 == 0 && y % 100 != 0) || y % 400 == 0

/-- Number of days in 0-based month `m` of a year with leapness `leap`
(models new Date(year, m+1, 0).getDate()). -/
def monthDays (leap : Bool) (m : Int) : Int :=
  if m = 0 then 31
  else if m = 1 then (if leap then 29 else 28)
  else if m = 2 then 31
  else if m = 3 then 30
  else if m = 4 then 31
  else if m = 5 then 30
  else if m = 6 then 31
  else if m = 7 then 31
  else if m = 8 then 30
  else if m = 9 then 31
  else if m = 10 then 30
  else if m = 11 then 31
  else 0

/-- Days elapsed before 0-based month `m` within the year. -/
def monthOffset (leap : Bool) (m : Int) : Int :=
  let adj : Int := if leap then 1 else 0
  if m = 0 then 0
  else if m = 1 then 31
  else if m = 2 then 59 + adj
  else if m = 3 then 90 + adj
  else if m = 4 then 120 + adj
  else if m = 5 then 151 + adj
  else if m = 6 then 181 + adj
  else if m = 7 then 212 + adj
  else if m = 8 then 243 + adj
  else if m = 9 then 273 + adj
  else if m = 10 then 304 + adj
  else if m = 11 then 334 + adj
  else 0

/-- Proleptic-Gregorian day number (Rata Die: 0001-01-01 ↦ 1).  Two JS Dates at
local midnight compare by getTime exactly as their `rataDie` values compare, and
their getTime difference is 86400000 × the `rataDie` difference. -/
def rataDie (hd : HDate) : Int :=
  365 * (hd.y - 1) + Int.fdiv (hd.y - 1) 4 - Int.fdiv (hd.y - 1) 100
    + Int.fdiv (hd.y - 1) 400 + monthOffset (isLeap hd.y) hd.m + hd.d

/-- One sample of a valuation series, after parsing: `date` models
parseAPIDate of the stored dd-mm-yyyy string, `nav` models parseFloat of the
stored decimal string. -/
structure NAVData where
  date : HDate
  nav : ℚ
deriving DecidableEq, Repr

/-- JS truthiness of a `number | null | undefined` value. -/
def truthy : Option ℚ → Bool
  | none => false
  | some v => v != 0

/-- The two lookup policies of getNAV. -/
inductive NavMode
  | PURCHASE
  | VALUATION
deriving DecidableEq, Repr

/-- getNAV from utils/financials.ts.  The PURCHASE branch walks the stored
array from the last index down to 0 (modelled as find? on the reversed list)
returning the first sample with date ≥ target; if none matches and the target
is strictly after the first-stored sample's date it falls back to that sample's
value.  The VALUATION branch walks front-to-back returning the first sample
with date ≤ target. -/
def getNAV (history : List NAVData) (targetDate : HDate) (mode : NavMode) : Option ℚ :=
  if history = [] then none
  else
    match mode with
    | NavMode.PURCHASE =>
      match history.reverse.find? (fun e => rataDie targetDate ≤ rataDie e.date) with
      | some e => some e.nav
      | none =>
        match history with
        | [] => none
        | h0 :: _ => if rataDie h0.date < rataDie targetDate then some h0.nav else none
    | NavMode.VALUATION =>
      match history.find? (fun e => rataDie e.date ≤ rataDie targetDate) with
      | some e => some e.nav
      | none => none

/-- InvestmentType from types.ts. -/
inductive InvestmentType
  | SIP
  | LUMPSUM
deriving DecidableEq, Repr

/-- The fields of an Investment record (types.ts) that the engine reads.
`startDate`/`endDate` model parseISODate of the stored ISO strings;
`navHistory` is non-optional in the type (empty when absent) while
`counterpartNavHistory` is optional. -/
structure Investment where
  name : String
  isDirect : Bool
  navHistory : List NAVData
  counterpartNavHistory : Option (List NAVData)
  type : InvestmentType
  amount : ℚ
  startDate : HDate
  endDate : Option HDate
deriving DecidableEq, Repr

/-- A signed cash flow: negative = contribution, positive = inflow. -/
structure CashFlow where
  date : HDate
  amount : ℚ
deriving DecidableEq, Repr

/-- Result record of simulateInvestment. -/
structure SimResult where
  units : ℚ
  totalInvested : ℚ
  cashFlows : List CashFlow
  currentValue : ℚ
deriving DecidableEq, Repr

/-- Value of the first stored sample (navHistory[0].nav); 0 for an empty list,
which the callers guard against. -/
def hist0nav : List NAVData → ℚ
  | [] => 0
  | e :: _ => e.nav

/-- JS setMonth(getMonth() + 1) on a Date whose day-of-month needs no clamping
(both monthly loops keep the cursor on day 1). -/
def addMonth (c : HDate) : HDate :=
  ⟨c.y + Int.fdiv (c.m + 1) 12, Int.emod (c.m + 1) 12, c.d⟩

/-- The monthly while-loop of simulateInvestment's SIP branch, as a
fuel-bounded recursion (the JS loop runs one iteration per calendar month
while cursor ≤ now; the caller passes enough fuel for every such month).
The accumulator carries (units, totalInvested, cashFlows-so-far-in-order). -/
def simSIPGo (amount : ℚ) (startDate : HDate) (endDate : Option HDate)
    (now : HDate) (navHistory : List NAVData) (startDay : Int) :
    Nat → HDate → ℚ × ℚ × List CashFlow → ℚ × ℚ × List CashFlow
  | 0, _, acc => acc
  | fuel + 1, cursor, acc =>
    if rataDie cursor ≤ rataDie now then
      let year := cursor.y
      let month := cursor.m
      let maxDayInMonth := monthDays (isLeap year) month
      let actualDay := if startDay ≤ maxDayInMonth then startDay else maxDayInMonth
      let paymentDate : HDate := ⟨year, month, actualDay⟩
      let isStarted := decide (rataDie startDate ≤ rataDie paymentDate)
      let isNotFuture := decide (rataDie paymentDate ≤ rataDie now)
      let isBeforeEnd := match endDate with
        | some e => decide (rataDie paymentDate ≤ rataDie e)
        | none => true
      let acc' :=
        if isStarted && isNotFuture && isBeforeEnd then
          let nav := getNAV navHistory paymentDate NavMode.PURCHASE
          if truthy nav then
            (acc.1 + amount / nav.getD 0, acc.2.1 + amount,
              acc.2.2 ++ [⟨paymentDate, -amount⟩])
          else acc
        else acc
      simSIPGo amount startDate endDate now navHistory startDay fuel (addMonth cursor) acc'
    else acc

/-- simulateInvestment from utils/financials.ts.  `now` models the
`new Date()` (current clock date, truncated to midnight) the function reads.
The `navHistory` argument is the series chosen by the caller; JS
`!navHistory || navHistory.length === 0` collapses undefined and [] so the
series is modelled as a plain list. -/
def simulateInvestment (inv : Investment) (navHistory : List NAVData) (now : HDate) : SimResult :=
  if navHistory = [] then ⟨0, 0, [], 0⟩
  else
    let startDate := inv.startDate
    match inv.type with
    | InvestmentType.LUMPSUM =>
      let nav := getNAV navHistory startDate NavMode.PURCHASE
      let (units, totalInvested, cashFlows) :=
        if truthy nav then
          ((inv.amount / nav.getD 0 : ℚ), inv.amount, [(⟨startDate, -inv.amount⟩ : CashFlow)])
        else (0, 0, [])
      ⟨units, totalInvested, cashFlows, units * hist0nav navHistory⟩
    | InvestmentType.SIP =>
      let cursor0 : HDate := ⟨startDate.y, startDate.m, 1⟩
      let fuel := (rataDie now - rataDie cursor0).toNat + 1
      let (units, totalInvested, cashFlows) :=
        simSIPGo inv.amount startDate inv.endDate now navHistory startDate.d
          fuel cursor0 (0, 0, [])
      ⟨units, totalInvested, cashFlows, units * hist0nav navHistory⟩

/-- Math.round on a finite JS number: nearest integer, halves toward +∞. -/
def jsRound (q : ℚ) : Int := ⌊q + 1 / 2⌋

/-- One element of the mutable `portfolio` array of generateBacktestData:
the investment's fields plus its running accumulators. -/
structure PortState where
  isDirect : Bool
  type : InvestmentType
  amount : ℚ
  parsedStartDate : HDate
  parsedEndDate : Option HDate
  navHistory : List NAVData
  counterpartNavHistory : Option (List NAVData)
  unitsDirect : ℚ
  unitsRegular : ℚ
  totalInvested : ℚ
  hasLumpsumInvested : Bool
deriving DecidableEq, Repr

/-- One emitted snapshot (ChartDataPoint).  `month` carries the month-end
valuation date that the JS code formats into the label string. -/
structure ChartDataPoint where
  month : HDate
  directValue : Int
  regularValue : Int
  actualValue : Int
  counterpartValue : Int
  investedAmount : Int
  benchmarkValue : Option Int
deriving DecidableEq, Repr

/-- Whether a contribution posts for this investment in month (year, month):
the SIP day-clamped candidate-date checks, or the once-only lumpsum firing in
its start month. -/
def paymentDateFor (year month : Int) (now : HDate) (p : PortState) : Option HDate :=
  match p.type with
  | InvestmentType.SIP =>
    let startDay := p.parsedStartDate.d
    let maxDayInMonth := monthDays (isLeap year) month
    let actualDay := if startDay ≤ maxDayInMonth then startDay else maxDayInMonth
    let cand : HDate := ⟨year, month, actualDay⟩
    let isStarted := decide (rataDie p.parsedStartDate ≤ rataDie cand)
    let isNotFuture := decide (rataDie cand ≤ rataDie now)
    let isBeforeEnd := match p.parsedEndDate with
      | some e => decide (rataDie cand ≤ rataDie e)
      | none => true
    if isStarted && isNotFuture && isBeforeEnd then some cand else none
  | InvestmentType.LUMPSUM =>
    if ¬p.hasLumpsumInvested ∧ p.parsedStartDate.m = month ∧ p.parsedStartDate.y = year
    then some p.parsedStartDate else none

/-- The buy phase of one month for one investment: updates the scenario unit
accumulators and the invested total, and returns the benchmark units bought
from this investment's contribution. -/
def buyStep (year month : Int) (now : HDate) (benchmarkHistory : List NAVData)
    (hasBenchmark : Bool) (p : PortState) : PortState × ℚ :=
  match paymentDateFor year month now p with
  | none => (p, 0)
  | some paymentDate =>
    let hasLump := if p.type = InvestmentType.LUMPSUM then true else p.hasLumpsumInvested
    let udInc : ℚ :=
      if p.isDirect ∧ p.navHistory ≠ [] then
        let nav := getNAV p.navHistory paymentDate NavMode.PURCHASE
        if truthy nav then p.amount / nav.getD 0 else 0
      else if ¬p.isDirect ∧ p.counterpartNavHistory.getD [] ≠ [] then
        let nav := getNAV (p.counterpartNavHistory.getD []) paymentDate NavMode.PURCHASE
        if truthy nav then p.amount / nav.getD 0 else 0
      else 0
    let urInc : ℚ :=
      if ¬p.isDirect ∧ p.navHistory ≠ [] then
        let nav := getNAV p.navHistory paymentDate NavMode.PURCHASE
        if truthy nav then p.amount / nav.getD 0 else 0
      else if p.isDirect ∧ p.counterpartNavHistory.getD [] ≠ [] then
        let nav := getNAV (p.counterpartNavHistory.getD []) paymentDate NavMode.PURCHASE
        if truthy nav then p.amount / nav.getD 0 else 0
      else 0
    let bInc : ℚ :=
      if hasBenchmark then
        let bNav := getNAV benchmarkHistory paymentDate NavMode.PURCHASE
        if truthy bNav then p.amount / bNav.getD 0 else 0
      else 0
    ({ p with
        hasLumpsumInvested := hasLump
        unitsDirect := p.unitsDirect + udInc
        unitsRegular := p.unitsRegular + urInc
        totalInvested := p.totalInvested + p.amount }, bInc)

/-- Month-end revaluation of one investment's two scenario balances:
(all-direct value, all-regular value). -/
def scenarioVals (monthEnd : HDate) (p : PortState) : ℚ × ℚ :=
  let historyD := if p.isDirect then some p.navHistory else p.counterpartNavHistory
  let valD : ℚ :=
    if p.unitsDirect > 0 ∧ historyD.isSome then
      let nav := getNAV (historyD.getD []) monthEnd NavMode.VALUATION
      if truthy nav then p.unitsDirect * nav.getD 0 else 0
    else 0
  let historyR := if ¬p.isDirect then some p.navHistory else p.counterpartNavHistory
  let valR : ℚ :=
    if p.unitsRegular > 0 ∧ historyR.isSome then
      let nav := getNAV (historyR.getD []) monthEnd NavMode.VALUATION
      if truthy nav then p.unitsRegular * nav.getD 0 else 0
    else 0
  (valD, valR)

/-- This investment's contribution to the month's `actualValue` total:
whichever of the two scenario values matches the really-held plan. -/
def actualContrib (monthEnd : HDate) (p : PortState) : ℚ :=
  if p.isDirect then (scenarioVals monthEnd p).1 else (scenarioVals monthEnd p).2

/-- This investment's contribution to the month's `counterpartValue` total:
the complementary scenario value. -/
def counterContrib (monthEnd : HDate) (p : PortState) : ℚ :=
  if p.isDirect then (scenarioVals monthEnd p).2 else (scenarioVals monthEnd p).1

/-- The monthly while-loop of generateBacktestData, fuel-bounded. -/
def backtestGo (now : HDate) (benchmarkHistory : List NAVData) (hasBenchmark : Bool) :
    Nat → HDate → List PortState → ℚ → List ChartDataPoint → List ChartDataPoint
  | 0, _, _, _, acc => acc
  | fuel + 1, cursor, portfolio, benchmarkUnits, acc =>
    if rataDie cursor ≤ rataDie now then
      let year := cursor.y
      let month := cursor.m
      let monthEnd0 : HDate := ⟨year, month, monthDays (isLeap year) month⟩
      let monthEnd := if rataDie now < rataDie monthEnd0 then now else monthEnd0
      let stepped := portfolio.map (buyStep year month now benchmarkHistory hasBenchmark)
      let portfolio' := stepped.map Prod.fst
      let benchmarkUnits' := benchmarkUnits + (stepped.map Prod.snd).sum
      let totalInvested := (portfolio'.map PortState.totalInvested).sum
      let totalDirectVal := (portfolio'.map (fun p => (scenarioVals monthEnd p).1)).sum
      let totalRegularVal := (portfolio'.map (fun p => (scenarioVals monthEnd p).2)).sum
      let totalActualVal := (portfolio'.map (actualContrib monthEnd)).sum
      let totalCounterpartVal := (portfolio'.map (counterContrib monthEnd)).sum
      let totalBenchmarkVal : ℚ :=
        if hasBenchmark ∧ benchmarkUnits' > 0 then
          let bNav := getNAV benchmarkHistory monthEnd NavMode.VALUATION
          if truthy bNav then benchmarkUnits' * bNav.getD 0 else 0
        else 0
      let acc' :=
        if totalInvested > 0 then
          acc ++ [⟨monthEnd, jsRound totalDirectVal, jsRound totalRegularVal,
            jsRound totalActualVal, jsRound totalCounterpartVal, jsRound totalInvested,
            if hasBenchmark then some (jsRound totalBenchmarkVal) else none⟩]
        else acc
      backtestGo now benchmarkHistory hasBenchmark fuel (addMonth cursor)
        portfolio' benchmarkUnits' acc'
    else acc

/-- Earliest of a list of dates by getTime (Math.min over the start times). -/
def minDateOf (d0 : HDate) (rest : List HDate) : HDate :=
  rest.foldl (fun acc x => if rataDie x < rataDie acc then x else acc) d0

/-- The initial PortState of one active investment. -/
def initPortState (i : Investment) : PortState :=
  ⟨i.isDirect, i.type, i.amount, i.startDate, i.endDate,
    i.navHistory, i.counterpartNavHistory, 0, 0, 0, false⟩

/-- generateBacktestData from utils/financials.ts, with the ambient clock date
made explicit as `now`. -/
def generateBacktestData (investments : List Investment)
    (benchmarkHistory : Option (List NAVData)) (now : HDate) : List ChartDataPoint :=
  if investments = [] then []
  else
    let active := investments.filter
      (fun i => i.navHistory ≠ [] ∨ i.counterpartNavHistory.getD [] ≠ [])
    match active with
    | [] => []
    | a0 :: arest =>
      let minD := minDateOf a0.startDate (arest.map Investment.startDate)
      let cursor0 : HDate := ⟨minD.y, minD.m, 1⟩
      let portfolio := (a0 :: arest).map initPortState
      let hasBenchmark := benchmarkHistory.getD [] ≠ []
      let fuel := (rataDie now - rataDie cursor0).toNat + 1
      backtestGo now (benchmarkHistory.getD []) hasBenchmark fuel cursor0 portfolio 0 []

/-- One pass over the flow list computing (fValue, fDerivative) at `rate`.
`powFn` stands for Math.pow; the clamp max(rate, -0.99) keeps the base
1 + r ≥ 0.01 strictly positive, so for the real Math.pow the power factor is
strictly positive and fValue/fDerivative are finite. -/
def xirrF (powFn : ℚ → ℚ → ℚ) (flows : List CashFlow) (first : HDate) (rate : ℚ) : ℚ × ℚ :=
  flows.foldl
    (fun acc flow =>
      let days : ℚ := ((rataDie flow.date - rataDie first : Int) : ℚ)
      let years := days / 365
      let r := if rate ≤ -(99 / 100) then -(99 / 100) else rate
      let pvFactor := powFn (1 + r) years
      (acc.1 + flow.amount / pvFactor,
        acc.2 - years * flow.amount / (pvFactor * (1 + r))))
    (0, 0)

/-- The Newton-Raphson loop of calculateXIRR.  `none` models the JS abort path:
when fDerivative = 0 the update fValue/fDerivative is ±Infinity or NaN, so
newRate is non-finite and the JS code returns 0. -/
def xirrLoop (powFn : ℚ → ℚ → ℚ) (flows : List CashFlow) (first : HDate) :
    Nat → ℚ → Option ℚ
  | 0, rate => some rate
  | fuel + 1, rate =>
    let fv := (xirrF powFn flows first rate).1
    let fd := (xirrF powFn flows first rate).2
    if |fv| < 1 then some rate
    else if fd = 0 then none
    else xirrLoop powFn flows first fuel (rate - fv / fd)

/-- The unconditional Newton iterate sequence started at the initial guess
0.1; used to state what the loop does (ℚ division by a zero derivative yields
a junk value, but the theorems only reference iterates whose prefix of
derivatives is nonzero). -/
def xirrRates (powFn : ℚ → ℚ → ℚ) (flows : List CashFlow) (first : HDate) : Nat → ℚ
  | 0 => 1 / 10
  | n + 1 =>
    let r := xirrRates powFn flows first n
    let fv := (xirrF powFn flows first r).1
    let fd := (xirrF powFn flows first r).2
    r - fv / fd

/-- calculateXIRR from utils/financials.ts: append the synthetic terminal
inflow, require ≥ 2 flows, run at most 50 Newton iterations from 0.1 stopping
when |f| < 1, return rate × 100 (or 0 on the abort path). -/
def calculateXIRR (powFn : ℚ → ℚ → ℚ) (transactions : List CashFlow)
    (currentValue : ℚ) (valuationDate : HDate) : ℚ :=
  let flows := transactions ++ [⟨valuationDate, currentValue⟩]
  if flows.length < 2 then 0
  else
    match flows with
    | [] => 0
    | f0 :: _ =>
      match xirrLoop powFn flows f0.date 50 (1 / 10) with
      | none => 0
      | some r => r * 100

/-- calculateMaxDrawdown: running peak, max of (peak - v)/peak, × 100. -/
def calculateMaxDrawdown (values : List ℚ) : ℚ :=
  match values with
  | [] => 0
  | v0 :: _ =>
    let res := values.foldl
      (fun acc v =>
        let maxPeak := if v > acc.1 then v else acc.1
        let drawdown := (maxPeak - v) / maxPeak
        (maxPeak, if drawdown > acc.2 then drawdown else acc.2))
      (v0, 0)
    res.2 * 100

/-- calculateVolatility: filter to dates ≥ startDate, sort ascending by date,
require ≥ 30 samples, annualized stdev of period returns.  `sqrtFn` stands for
Math.sqrt. -/
def calculateVolatility (sqrtFn : ℚ → ℚ) (navHistory : List NAVData) (startDate : HDate) : ℚ :=
  let history := (navHistory.filter (fun h => decide (rataDie startDate ≤ rataDie h.date))).mergeSort
    (fun a b => decide (rataDie a.date ≤ rataDie b.date))
  if history.length < 30 then 0
  else
    let returns := (history.zip history.tail).map
      (fun pr => (pr.2.nav - pr.1.nav) / pr.1.nav)
    let mean := returns.sum / (returns.length : ℚ)
    let variance := (returns.map (fun r => (r - mean) ^ 2)).sum / (returns.length : ℚ)
    sqrtFn variance * sqrtFn 252 * 100

/-- The asset-side date map of calculateBeta (Map.set in input order, so the
last stored sample with a given date key wins). -/
def assetNavAt (assetHistory : List NAVData) (d : HDate) : Option ℚ :=
  (assetHistory.reverse.find? (fun h => h.date == d)).map NAVData.nav

/-- The aligned date keys of calculateBeta: benchmark entries on/after
startDate whose date occurs in the asset map, reversed into ascending order. -/
def betaCommonDates (assetHistory benchmarkHistory : List NAVData) (startDate : HDate) : List HDate :=
  ((benchmarkHistory.filter
      (fun h => decide (rataDie startDate ≤ rataDie h.date) && (assetNavAt assetHistory h.date).isSome)).map
    NAVData.date).reverse

/-- Benchmark nav at a common date (find = first stored entry with that key). -/
def benchNavAt (benchmarkHistory : List NAVData) (d : HDate) : ℚ :=
  ((benchmarkHistory.find? (fun h => h.date == d)).map NAVData.nav).getD 0

/-- The aligned period returns of calculateBeta, asset side. -/
def betaAssetReturns (assetHistory benchmarkHistory : List NAVData) (startDate : HDate) : List ℚ :=
  let cd := betaCommonDates assetHistory benchmarkHistory startDate
  (cd.zip cd.tail).map
    (fun pr =>
      let ap := (assetNavAt assetHistory pr.1).getD 0
      let ac := (assetNavAt assetHistory pr.2).getD 0
      (ac - ap) / ap)

/-- The aligned period returns of calculateBeta, benchmark side. -/
def betaBenchReturns (assetHistory benchmarkHistory : List NAVData) (startDate : HDate) : List ℚ :=
  let cd := betaCommonDates assetHistory benchmarkHistory startDate
  (cd.zip cd.tail).map
    (fun pr =>
      let bp := benchNavAt benchmarkHistory pr.1
      let bc := benchNavAt benchmarkHistory pr.2
      (bc - bp) / bp)

/-- The (unnormalized) variance accumulator of the benchmark returns in
calculateBeta: Σ (b - meanBench)². -/
def betaBenchVariance (assetHistory benchmarkHistory : List NAVData) (startDate : HDate) : ℚ :=
  let br := betaBenchReturns assetHistory benchmarkHistory startDate
  let meanBench := br.sum / (br.length : ℚ)
  (br.map (fun b => (b - meanBench) ^ 2)).sum

/-- calculateBeta from utils/financials.ts. -/
def calculateBeta (assetHistory benchmarkHistory : List NAVData) (startDate : HDate) : ℚ :=
  if (betaCommonDates assetHistory benchmarkHistory startDate).length < 30 then 1
  else
    let ar := betaAssetReturns assetHistory benchmarkHistory startDate
    let br := betaBenchReturns assetHistory benchmarkHistory startDate
    let meanAsset := ar.sum / (ar.length : ℚ)
    let meanBench := br.sum / (br.length : ℚ)
    let covariance := ((ar.zip br).map
      (fun p => (p.1 - meanAsset) * (p.2 - meanBench))).sum
    let varianceBench := betaBenchVariance assetHistory benchmarkHistory startDate
    if varianceBench = 0 then 1 else covariance / varianceBench

/-- PortfolioMetrics (types.ts); alpha/beta are optional numbers. -/
structure PortfolioMetrics where
  totalInvested : ℚ
  currentValue : ℚ
  regularValue : ℚ
  actualValue : ℚ
  counterpartValue : ℚ
  netImpact : ℚ
  yearlyImpact : ℚ
  xirr : ℚ
  absoluteReturn : ℚ
  maxDrawdown : ℚ
  romad : ℚ
  alpha : Option ℚ
  beta : Option ℚ
deriving DecidableEq, Repr

/-- The contribution-netted (portfolio return, benchmark return) pairs that
calculatePortfolioStats builds from consecutive chart points. -/
def statsReturnPairs (chartData : List ChartDataPoint) : List (ℚ × ℚ) :=
  (chartData.zip chartData.tail).filterMap
    (fun pr =>
      let prev := pr.1
      let curr := pr.2
      let cashflow : ℚ := ((curr.investedAmount - prev.investedAmount : Int) : ℚ)
      if prev.actualValue > 0 ∧ prev.benchmarkValue.isSome ∧ curr.benchmarkValue.isSome then
        let pDenom := (prev.actualValue : ℚ) + cashflow
        let pRet := if pDenom > 0
          then ((curr.actualValue : ℚ) - (prev.actualValue : ℚ) - cashflow) / pDenom else 0
        let bDenom := ((prev.benchmarkValue.getD 0 : Int) : ℚ) + cashflow
        let bRet := if bDenom > 0
          then (((curr.benchmarkValue.getD 0 : Int) : ℚ) - ((prev.benchmarkValue.getD 0 : Int) : ℚ) - cashflow) / bDenom
          else 0
        some (pRet, bRet)
      else none)

/-- calculatePortfolioStats from utils/financials.ts, with the ambient clock
date explicit as `now`.  `Math.pow(1 + meanBench, 12)` has the literal integer
exponent 12 and is modelled exactly. -/
def calculatePortfolioStats (powFn : ℚ → ℚ → ℚ) (investments : List Investment)
    (chartData : List ChartDataPoint) (benchmarkHistory : Option (List NAVData))
    (now : HDate) : PortfolioMetrics :=
  let per := investments.map
    (fun inv =>
      let stats := simulateInvestment inv inv.navHistory now
      let counterVal :=
        if inv.counterpartNavHistory.getD [] ≠ [] then
          (simulateInvestment inv (inv.counterpartNavHistory.getD []) now).currentValue
        else stats.currentValue
      (stats, counterVal))
  let totalInvested := (per.map (fun s => s.1.totalInvested)).sum
  let actualValue := (per.map (fun s => s.1.currentValue)).sum
  let counterpartValue := (per.map Prod.snd).sum
  let allCashFlows := (per.map (fun s => s.1.cashFlows)).flatten
  let netImpact := actualValue - counterpartValue
  let yearlyImpact : ℚ :=
    if chartData.length > 0 then
      let years0 : ℚ := (chartData.length : ℚ) / 12
      let years := if years0 < 1 / 10 then 1 / 10 else years0
      netImpact / years
    else 0
  let xirr := calculateXIRR powFn allCashFlows actualValue now
  let absoluteReturn :=
    if totalInvested > 0 then (actualValue - totalInvested) / totalInvested * 100 else 0
  let maxDrawdown := calculateMaxDrawdown (chartData.map (fun d => (d.actualValue : ℚ)))
  let romad := if maxDrawdown > 0 then xirr / maxDrawdown else if xirr > 0 then 100 else 0
  let bh := benchmarkHistory.getD []
  let ab : ℚ × ℚ :=
    if bh ≠ [] ∧ chartData.length > 6 then
      let pairs := statsReturnPairs chartData
      if pairs.length > 0 then
        let pr := pairs.map Prod.fst
        let br := pairs.map Prod.snd
        let meanPort := pr.sum / (pr.length : ℚ)
        let meanBench := br.sum / (br.length : ℚ)
        let cov := ((pr.zip br).map
          (fun p => (p.1 - meanPort) * (p.2 - meanBench))).sum
        let varBench := (br.map (fun b => (b - meanBench) ^ 2)).sum
        let beta := if varBench > 0 then cov / varBench else 1
        let rm := (1 + meanBench) ^ (12 : ℕ) - 1
        let rp := xirr / 100
        ((rp - (6 / 100 + beta * (rm - 6 / 100))) * 100, beta)
      else (0, 0)
    else (0, 0)
  { totalInvested := totalInvested
    currentValue := actualValue
    regularValue := 0
    actualValue := actualValue
    counterpartValue := counterpartValue
    netImpact := netImpact
    yearlyImpact := yearlyImpact
    xirr := xirr
    absoluteReturn := absoluteReturn
    maxDrawdown := maxDrawdown
    romad := romad
    alpha := match benchmarkHistory with
      | none => none
      | some _ => some ab.1
    beta := match benchmarkHistory with
      | none => none
      | some _ => some ab.2 }

/-- One row of calculateFundRatios' per-fund table. -/
structure FundRow where
  name : String
  invested : ℚ
  currentValue : ℚ
  xirr : ℚ
  volatility : ℚ
  beta : ℚ
  alpha : ℚ
deriving DecidableEq, Repr

/-- The aggregate record returned by calculateFundRatios. -/
structure FundRatiosResult where
  funds : List FundRow
  pInvested : ℚ
  pCurrentValue : ℚ
  pXirr : ℚ
  pVolatility : ℚ
  pBeta : ℚ
  pAlpha : ℚ
deriving DecidableEq, Repr

/-- calculateFundRatios from utils/financials.ts, ambient clock explicit as
`now`.  Per fund: simulate on the selected plan's series, XIRR, volatility,
and — only when a non-empty benchmark is supplied — beta and Jensen alpha
(whose market CAGR uses Math.pow with exponent 1/max(years, 0.1), via powFn). -/
def calculateFundRatios (powFn : ℚ → ℚ → ℚ) (sqrtFn : ℚ → ℚ)
    (investments : List Investment) (benchmarkHistory : List NAVData)
    (now : HDate) : FundRatiosResult :=
  let rows := investments.filterMap
    (fun inv =>
      if inv.navHistory = [] then none
      else
        let stats := simulateInvestment inv inv.navHistory now
        let startDate := inv.startDate
        let xirr := calculateXIRR powFn stats.cashFlows stats.currentValue now
        let volatility := calculateVolatility sqrtFn inv.navHistory startDate
        let ba : ℚ × ℚ :=
          if benchmarkHistory ≠ [] then
            let beta := calculateBeta inv.navHistory benchmarkHistory startDate
            let bStartNav := getNAV benchmarkHistory startDate NavMode.PURCHASE
            if truthy bStartNav then
              let bEndNav := hist0nav benchmarkHistory
              let years : ℚ := ((rataDie now - rataDie startDate : Int) : ℚ) / 365
              let rm := powFn (bEndNav / bStartNav.getD 0) (1 / (if years ≤ 1 / 10 then 1 / 10 else years)) - 1
              (beta, ((xirr / 100) - (6 / 100 + beta * (rm - 6 / 100))) * 100)
            else (beta, 0)
          else (0, 0)
        some ((⟨inv.name, stats.totalInvested, stats.currentValue, xirr,
          volatility, ba.1, ba.2⟩ : FundRow), stats.cashFlows))
  let funds := rows.map Prod.fst
  let allCashFlows := (rows.map Prod.snd).flatten
  let totalInvested := (funds.map FundRow.invested).sum
  let totalValue := (funds.map FundRow.currentValue).sum
  let portfolioXirr := calculateXIRR powFn allCashFlows totalValue now
  let weightedVol :=
    if totalValue > 0 then
      (funds.map (fun f => f.volatility * (f.currentValue / totalValue))).sum
    else 0
  let weightedBeta :=
    if totalValue > 0 then
      (funds.map (fun f => f.beta * (f.currentValue / totalValue))).sum
    else 0
  let weightedAlpha :=
    if totalValue > 0 then
      (funds.map (fun f => f.alpha * (f.currentValue / totalValue))).sum
    else 0
  ⟨funds, totalInvested, totalValue, portfolioXirr, weightedVol, weightedBeta, weightedAlpha⟩

/-- An exact stand-in for Math.pow usable as a concrete `powFn` in witnesses:
correct for every integer exponent (the only exponents the concrete witness
inputs reach), arbitrary (0) elsewhere. -/
def intPow (x y : ℚ) : ℚ := if y.den = 1 then x ^ y.num else 0

/-- A concrete `sqrtFn` stand-in for witnesses (its value is irrelevant to
every property proved here). -/
def zeroSqrt (_ : ℚ) : ℚ := 0

/-- C9: calculateBeta returns exactly 1 whenever fewer than 30 exactly-date-matched
points exist on/after the since-date, regardless of sample values, and also
whenever the variance accumulator of the aligned benchmark returns is 0. -/
theorem calculateBeta_neutral (assetHistory benchmarkHistory : List NAVData) (startDate : HDate) :
    ((betaCommonDates assetHistory benchmarkHistory startDate).length < 30 →
      calculateBeta assetHistory benchmarkHistory startDate = 1) ∧
    (betaBenchVariance assetHistory benchmarkHistory startDate = 0 →
      calculateBeta assetHistory benchmarkHistory startDate = 1) := by
  constructor
  · intro h
    simp [calculateBeta, h]
  · intro h
    by_cases hlen : (betaCommonDates assetHistory benchmarkHistory startDate).length < 30
    · simp [calculateBeta, hlen]
    · simp [calculateBeta, hlen, h]

/-- Witness for C9 at a concrete empty alignment. -/
theorem calculateBeta_neutral_witness : calculateBeta [] [] ⟨2023, 0, 1⟩ = 1 :=
  (calculateBeta_neutral [] [] ⟨2023, 0, 1⟩).1 (by with_unfolding_all decide)

/-- C5 (amended): for every non-empty series, when the target date is strictly
after every sample date, purchase-mode getNAV returns the value of the sample
stored first in the list (the newest sample only when the series is stored
newest-first); when the target date is strictly before every sample date,
valuation-mode getNAV returns none — no backward fallback. -/
theorem getNAV_boundary_fallback (e0 : NAVData) (rest : List NAVData) :
    (∀ t : HDate, (∀ e ∈ e0 :: rest, rataDie e.date < rataDie t) →
      getNAV (e0 :: rest) t NavMode.PURCHASE = some e0.nav) ∧
    (∀ t : HDate, (∀ e ∈ e0 :: rest, rataDie t < rataDie e.date) →
      getNAV (e0 :: rest) t NavMode.VALUATION = none) := by
  constructor
  · intro t h
    have hf : rest.reverse.find? (fun e => decide (rataDie t ≤ rataDie e.date)) = none := by
      rw [List.find?_eq_none]
      intro x hx
      have hx' := h x (List.mem_cons_of_mem e0 (List.mem_reverse.mp hx))
      simp only [decide_eq_true_eq]
      omega
    have h0 := h e0 (List.mem_cons_self e0 rest)
    simp [getNAV, hf, h0, not_le.mpr h0]
  · intro t h
    have hf : (e0 :: rest).find? (fun e => decide (rataDie e.date ≤ rataDie t)) = none := by
      rw [List.find?_eq_none]
      intro x hx
      have hx' := h x hx
      simp only [decide_eq_true_eq]
      omega
    simp [getNAV, hf]

/-- Witness for C5 on a concrete newest-first series. -/
theorem getNAV_boundary_fallback_witness :
    getNAV [⟨⟨2023, 0, 5⟩, 50⟩, ⟨⟨2023, 0, 1⟩, 10⟩] ⟨2023, 0, 7⟩ NavMode.PURCHASE = some 50 ∧
    getNAV [⟨⟨2023, 0, 5⟩, 50⟩, ⟨⟨2023, 0, 1⟩, 10⟩] ⟨2022, 11, 30⟩ NavMode.VALUATION = none :=
  ⟨(getNAV_boundary_fallback ⟨⟨2023, 0, 5⟩, 50⟩ [⟨⟨2023, 0, 1⟩, 10⟩]).1 ⟨2023, 0, 7⟩
      (by with_unfolding_all decide),
   (getNAV_boundary_fallback ⟨⟨2023, 0, 5⟩, 50⟩ [⟨⟨2023, 0, 1⟩, 10⟩]).2 ⟨2022, 11, 30⟩
      (by with_unfolding_all decide)⟩

/-- Counterexample to C5 as stated: on a series stored oldest-first, the
purchase-mode forward fallback returns the first-stored (oldest) sample's value
10, not the newest sample's value 50. -/
theorem getNAV_overflow_newest_cex :
    getNAV [⟨⟨2023, 0, 1⟩, 10⟩, ⟨⟨2023, 0, 5⟩, 50⟩] ⟨2023, 0, 7⟩ NavMode.PURCHASE = some 10 ∧
    getNAV [⟨⟨2023, 0, 1⟩, 10⟩, ⟨⟨2023, 0, 5⟩, 50⟩] ⟨2023, 0, 7⟩ NavMode.PURCHASE ≠ some 50 := by
  with_unfolding_all decide
/-- C3 (amended): simulateInvestment is a pure function of its explicit inputs
together with the ambient clock date; for single-event (LUMPSUM) schedules the
result does not depend on the clock date at all. -/
theorem simulateInvestment_lumpsum_clock_free (inv : Investment) (navHistory : List NAVData)
    (now1 now2 : HDate) (ht : inv.type = InvestmentType.LUMPSUM) :
    simulateInvestment inv navHistory now1 = simulateInvestment inv navHistory now2 := by
  simp [simulateInvestment, ht]

/-- Witness for C3 at a concrete lumpsum investment and two clock dates. -/
theorem simulateInvestment_lumpsum_clock_free_witness :
    simulateInvestment ⟨"f", true, [⟨⟨2023, 0, 1⟩, 10⟩], none, InvestmentType.LUMPSUM, 100, ⟨2023, 0, 1⟩, none⟩
        [⟨⟨2023, 0, 1⟩, 10⟩] ⟨2023, 0, 31⟩ =
      simulateInvestment ⟨"f", true, [⟨⟨2023, 0, 1⟩, 10⟩], none, InvestmentType.LUMPSUM, 100, ⟨2023, 0, 1⟩, none⟩
        [⟨⟨2023, 0, 1⟩, 10⟩] ⟨2024, 5, 15⟩ :=
  simulateInvestment_lumpsum_clock_free _ _ _ _ rfl

/-- Counterexample to C3 as stated: a recurring (SIP) simulation run at two
different clock dates yields different results, so the function does depend on
ambient clock state. -/
theorem simulateInvestment_clock_dependent_cex :
    simulateInvestment ⟨"s", true, [⟨⟨2023, 0, 1⟩, 10⟩], none, InvestmentType.SIP, 100, ⟨2023, 0, 15⟩, none⟩
        [⟨⟨2023, 0, 1⟩, 10⟩] ⟨2023, 0, 31⟩ ≠
      simulateInvestment ⟨"s", true, [⟨⟨2023, 0, 1⟩, 10⟩], none, InvestmentType.SIP, 100, ⟨2023, 0, 15⟩, none⟩
        [⟨⟨2023, 0, 1⟩, 10⟩] ⟨2023, 1, 28⟩ := by
  with_unfolding_all decide

/-- C8 (amended): a lumpsum simulation produces at most one cash flow, using
purchase-mode lookup at startDate; on an empty series or an untruthy lookup it
returns the all-zero result silently; on success it returns one flow of
-amount at startDate, totalContributed = amount, and currentValue =
unitsHeld × the first-stored sample's value (the newest sample's value only
when the series is stored newest-first). -/
theorem simulateInvestment_lumpsum_spec (inv : Investment) (navHistory : List NAVData)
    (now : HDate) (ht : inv.type = InvestmentType.LUMPSUM) :
    (simulateInvestment inv navHistory now).cashFlows.length ≤ 1 ∧
    (navHistory = [] → simulateInvestment inv navHistory now = ⟨0, 0, [], 0⟩) ∧
    (truthy (getNAV navHistory inv.startDate NavMode.PURCHASE) = false →
      simulateInvestment inv navHistory now = ⟨0, 0, [], 0⟩) ∧
    (truthy (getNAV navHistory inv.startDate NavMode.PURCHASE) = true →
      simulateInvestment inv navHistory now =
        ⟨inv.amount / (getNAV navHistory inv.startDate NavMode.PURCHASE).getD 0, inv.amount,
          [⟨inv.startDate, -inv.amount⟩],
          inv.amount / (getNAV navHistory inv.startDate NavMode.PURCHASE).getD 0 *
            hist0nav navHistory⟩) := by
  refine ⟨?_, ?_, ?_, ?_⟩
  · by_cases hh : navHistory = []
    · simp [simulateInvestment, hh]
    · by_cases htr : truthy (getNAV navHistory inv.startDate NavMode.PURCHASE)
      · simp [simulateInvestment, hh, ht, htr]
      · simp [simulateInvestment, hh, ht, htr]
  · intro hh
    simp [simulateInvestment, hh]
  · intro htr
    by_cases hh : navHistory = []
    · simp [simulateInvestment, hh]
    · simp [simulateInvestment, hh, ht, htr]
  · intro htr
    have hh : navHistory ≠ [] := by
      intro hcon
      rw [hcon] at htr
      simp [getNAV, truthy] at htr
    simp [simulateInvestment, hh, ht, htr]

/-- Witness for C8 at a concrete lumpsum investment. -/
theorem simulateInvestment_lumpsum_spec_witness :
    simulateInvestment ⟨"f", true, [⟨⟨2023, 0, 1⟩, 10⟩, ⟨⟨2023, 0, 5⟩, 20⟩], none,
        InvestmentType.LUMPSUM, 100, ⟨2023, 0, 1⟩, none⟩
        [⟨⟨2023, 0, 1⟩, 10⟩, ⟨⟨2023, 0, 5⟩, 20⟩] ⟨2023, 1, 1⟩ =
      ⟨100 / (getNAV [⟨⟨2023, 0, 1⟩, 10⟩, ⟨⟨2023, 0, 5⟩, 20⟩] ⟨2023, 0, 1⟩ NavMode.PURCHASE).getD 0,
        100, [⟨⟨2023, 0, 1⟩, -100⟩],
        100 / (getNAV [⟨⟨2023, 0, 1⟩, 10⟩, ⟨⟨2023, 0, 5⟩, 20⟩] ⟨2023, 0, 1⟩ NavMode.PURCHASE).getD 0 *
          hist0nav [⟨⟨2023, 0, 1⟩, 10⟩, ⟨⟨2023, 0, 5⟩, 20⟩]⟩ :=
  (simulateInvestment_lumpsum_spec _ _ _ rfl).2.2.2 (by with_unfolding_all decide)

/-- Counterexample to C8 as stated: on an oldest-first series the current value
uses the first-stored (oldest) value 10, giving 50, not unitsHeld × newest
value (which would be 100). -/
theorem simulateInvestment_lumpsum_newest_cex :
    (simulateInvestment ⟨"f", true, [⟨⟨2023, 0, 1⟩, 10⟩, ⟨⟨2023, 0, 5⟩, 20⟩], none,
        InvestmentType.LUMPSUM, 100, ⟨2023, 0, 1⟩, none⟩
        [⟨⟨2023, 0, 1⟩, 10⟩, ⟨⟨2023, 0, 5⟩, 20⟩] ⟨2023, 1, 1⟩).currentValue = 50 ∧
    (simulateInvestment ⟨"f", true, [⟨⟨2023, 0, 1⟩, 10⟩, ⟨⟨2023, 0, 5⟩, 20⟩], none,
        InvestmentType.LUMPSUM, 100, ⟨2023, 0, 1⟩, none⟩
        [⟨⟨2023, 0, 1⟩, 10⟩, ⟨⟨2023, 0, 5⟩, 20⟩] ⟨2023, 1, 1⟩).currentValue ≠
      (simulateInvestment ⟨"f", true, [⟨⟨2023, 0, 1⟩, 10⟩, ⟨⟨2023, 0, 5⟩, 20⟩], none,
        InvestmentType.LUMPSUM, 100, ⟨2023, 0, 1⟩, none⟩
        [⟨⟨2023, 0, 1⟩, 10⟩, ⟨⟨2023, 0, 5⟩, 20⟩] ⟨2023, 1, 1⟩).units * 20 := by
  with_unfolding_all decide
/-- C1 (amended): for a series stored strictly newest-first, and a target date
strictly between two adjacent (hence consecutive-by-date) samples e1 (later)
and e2 (earlier), purchase-mode getNAV returns the later sample's value and
valuation-mode getNAV returns the earlier sample's value. -/
theorem getNAV_between_consecutive (pre post : List NAVData) (e1 e2 : NAVData) (t : HDate)
    (hchain : List.Chain' (fun a b => rataDie b.date < rataDie a.date) (pre ++ e1 :: e2 :: post))
    (h2 : rataDie e2.date < rataDie t) (h1 : rataDie t < rataDie e1.date) :
    getNAV (pre ++ e1 :: e2 :: post) t NavMode.PURCHASE = some e1.nav ∧
    getNAV (pre ++ e1 :: e2 :: post) t NavMode.VALUATION = some e2.nav := by
  haveI : IsTrans NAVData (fun a b => rataDie b.date < rataDie a.date) :=
    ⟨fun a b c hab hbc => by omega⟩
  have hpw := (List.chain'_iff_pairwise).mp hchain
  rw [List.pairwise_append] at hpw
  obtain ⟨hpre, hmid, hcross⟩ := hpw
  have hmid2 := List.pairwise_cons.mp hmid
  have hpost : ∀ x ∈ post, rataDie x.date < rataDie t := by
    intro x hx
    have h1x := (List.pairwise_cons.mp hmid2.2).1 x hx
    omega
  have hpre' : ∀ x ∈ pre, rataDie t < rataDie x.date := by
    intro x hx
    have := hcross x hx e1 (List.mem_cons_self _ _)
    omega
  constructor
  · have hrev : (pre ++ e1 :: e2 :: post).reverse = post.reverse ++ e2 :: e1 :: pre.reverse := by
      simp
    have hfpost : post.reverse.find? (fun e => decide (rataDie t ≤ rataDie e.date)) = none := by
      rw [List.find?_eq_none]
      intro x hx
      have := hpost x (List.mem_reverse.mp hx)
      simp only [decide_eq_true_eq]
      omega
    have hne : pre ++ e1 :: e2 :: post ≠ [] := by
      intro hcon
      exact (List.cons_ne_nil e1 (e2 :: post)) (List.append_eq_nil.mp hcon).2
    simp only [getNAV, if_neg hne, hrev, List.find?_append, hfpost, Option.none_or]
    have he2 : (decide (rataDie t ≤ rataDie e2.date)) = false := by
      simp only [decide_eq_false_iff_not]
      omega
    have he1 : (decide (rataDie t ≤ rataDie e1.date)) = true := by
      simp only [decide_eq_true_eq]
      omega
    simp [List.find?, he2, he1]
  · have hne : pre ++ e1 :: e2 :: post ≠ [] := by
      intro hcon
      exact (List.cons_ne_nil e1 (e2 :: post)) (List.append_eq_nil.mp hcon).2
    have hfpre : pre.find? (fun e => decide (rataDie e.date ≤ rataDie t)) = none := by
      rw [List.find?_eq_none]
      intro x hx
      have := hpre' x hx
      simp only [decide_eq_true_eq]
      omega
    have he1 : (decide (rataDie e1.date ≤ rataDie t)) = false := by
      simp only [decide_eq_false_iff_not]
      omega
    have he2 : (decide (rataDie e2.date ≤ rataDie t)) = true := by
      simp only [decide_eq_true_eq]
      omega
    simp only [getNAV, if_neg hne, List.find?_append, hfpre, Option.none_or]
    simp [List.find?, he1, he2]

/-- Witness for C1 on a concrete newest-first three-sample series. -/
theorem getNAV_between_consecutive_witness :
    getNAV [⟨⟨2023, 0, 5⟩, 50⟩, ⟨⟨2023, 0, 3⟩, 30⟩, ⟨⟨2023, 0, 1⟩, 10⟩] ⟨2023, 0, 2⟩
        NavMode.PURCHASE = some 30 ∧
    getNAV [⟨⟨2023, 0, 5⟩, 50⟩, ⟨⟨2023, 0, 3⟩, 30⟩, ⟨⟨2023, 0, 1⟩, 10⟩] ⟨2023, 0, 2⟩
        NavMode.VALUATION = some 10 :=
  getNAV_between_consecutive [⟨⟨2023, 0, 5⟩, 50⟩] [] ⟨⟨2023, 0, 3⟩, 30⟩ ⟨⟨2023, 0, 1⟩, 10⟩
    ⟨2023, 0, 2⟩
    (by
      simp only [List.cons_append, List.nil_append, List.chain'_cons, List.chain'_singleton,
        and_true]
      exact ⟨by decide, by decide⟩)
    (by decide) (by decide)

/-- Counterexample to C1 as stated (any storage order): with samples stored in
the order [Jan 3, Jan 1, Jan 5] and target Jan 2, the consecutive-by-date
samples around the target are Jan 1 (value 10) and Jan 3 (value 30), but
purchase-mode getNAV returns 50, not 30. -/
theorem getNAV_between_unsorted_cex :
    getNAV [⟨⟨2023, 0, 3⟩, 30⟩, ⟨⟨2023, 0, 1⟩, 10⟩, ⟨⟨2023, 0, 5⟩, 50⟩] ⟨2023, 0, 2⟩
        NavMode.PURCHASE = some 50 ∧
    getNAV [⟨⟨2023, 0, 3⟩, 30⟩, ⟨⟨2023, 0, 1⟩, 10⟩, ⟨⟨2023, 0, 5⟩, 50⟩] ⟨2023, 0, 2⟩
        NavMode.PURCHASE ≠ some 30 := by
  with_unfolding_all decide
/-- C2 (amended): when the benchmark parameter is truly absent,
calculatePortfolioStats returns alpha = none and beta = none; but
calculateFundRatios always emits numeric per-fund alpha/beta fields, which are
the number 0 for every fund when the benchmark collection is empty. -/
theorem alphaBeta_no_benchmark (powFn : ℚ → ℚ → ℚ) (sqrtFn : ℚ → ℚ)
    (investments : List Investment) (chartData : List ChartDataPoint) (now : HDate) :
    ((calculatePortfolioStats powFn investments chartData none now).alpha = none ∧
     (calculatePortfolioStats powFn investments chartData none now).beta = none) ∧
    (∀ f ∈ (calculateFundRatios powFn sqrtFn investments [] now).funds,
      f.beta = 0 ∧ f.alpha = 0) := by
  constructor
  · constructor <;> simp [calculatePortfolioStats]
  · intro f hf
    simp only [calculateFundRatios] at hf
    rw [List.mem_map] at hf
    obtain ⟨pair, hpair, hpf⟩ := hf
    rw [List.mem_filterMap] at hpair
    obtain ⟨inv, hinv, hsome⟩ := hpair
    by_cases hh : inv.navHistory = []
    · rw [if_pos hh] at hsome
      exact absurd hsome (by simp)
    · rw [if_neg hh] at hsome
      simp only [ne_eq, not_true_eq_false, if_false, Option.some.injEq] at hsome
      rw [← hpf, ← hsome]
      exact ⟨rfl, rfl⟩
/-- Witness for C2 at concrete inputs (absent benchmark; one fund). -/
theorem alphaBeta_no_benchmark_witness :
    (calculatePortfolioStats intPow [] [] none ⟨2023, 0, 1⟩).alpha = none ∧
    ((calculateFundRatios intPow zeroSqrt
        [⟨"a", true, [⟨⟨2023, 0, 1⟩, 10⟩], none, InvestmentType.LUMPSUM, 100, ⟨2023, 0, 1⟩, none⟩]
        [] ⟨2023, 0, 31⟩).funds.headD ⟨"", 0, 0, 0, 0, 0, 0⟩).beta = 0 := by
  refine ⟨(alphaBeta_no_benchmark intPow zeroSqrt [] [] ⟨2023, 0, 1⟩).1.1, ?_⟩
  have h := (alphaBeta_no_benchmark intPow zeroSqrt
    [⟨"a", true, [⟨⟨2023, 0, 1⟩, 10⟩], none, InvestmentType.LUMPSUM, 100, ⟨2023, 0, 1⟩, none⟩]
    [] ⟨2023, 0, 31⟩).2
  exact (h _ (by with_unfolding_all decide)).1

/-- Counterexample to C2 as stated: supplying an empty benchmark collection
(truthy in JS) makes calculatePortfolioStats return alpha = some 0 and
beta = some 0 — numeric zeros, not absent values. -/
theorem alphaBeta_zero_cex :
    (calculatePortfolioStats intPow [] [] (some []) ⟨2023, 0, 1⟩).alpha = some 0 ∧
    (calculatePortfolioStats intPow [] [] (some []) ⟨2023, 0, 1⟩).beta = some 0 := by
  with_unfolding_all decide
/-- Helper: the Newton loop stops and returns the current rate as soon as
the absolute function value is below the tolerance 1. -/
theorem xirrLoop_stop (powFn : ℚ → ℚ → ℚ) (flows : List CashFlow) (first : HDate)
    (fuel : Nat) (rate : ℚ) (h : |(xirrF powFn flows first rate).1| < 1) :
    xirrLoop powFn flows first (fuel + 1) rate = some rate := by
  simp [xirrLoop, h]

/-- C4: for a single outflow of 100000 and a terminal inflow of 110000 exactly
365 days later, calculateXIRR returns a value within 0.5 absolute percentage
points of 10, for any power function that satisfies pow x 0 = 1 and
pow x 1 = x (as Math.pow does). -/
theorem xirr_round_trip (powFn : ℚ → ℚ → ℚ)
    (h0 : ∀ x, powFn x 0 = 1) (h1 : ∀ x, powFn x 1 = x) :
    |calculateXIRR powFn [⟨⟨2023, 0, 1⟩, -100000⟩] 110000 ⟨2024, 0, 1⟩ - 10| ≤ 1 / 2 := by
  have hd0 : (rataDie ⟨2023, 0, 1⟩ - rataDie ⟨2023, 0, 1⟩ : Int) = 0 := by decide
  have hd1 : (rataDie ⟨2024, 0, 1⟩ - rataDie ⟨2023, 0, 1⟩ : Int) = 365 := by decide
  have hfv : (xirrF powFn [⟨⟨2023, 0, 1⟩, -100000⟩, ⟨⟨2024, 0, 1⟩, 110000⟩]
      ⟨2023, 0, 1⟩ (1 / 10)).1 = 0 := by
    simp only [xirrF, List.foldl, hd0, hd1]
    norm_num
    rw [h0, h1]
    norm_num
  have hcal : calculateXIRR powFn [⟨⟨2023, 0, 1⟩, -100000⟩] 110000 ⟨2024, 0, 1⟩ = 1 / 10 * 100 := by
    simp only [calculateXIRR, List.cons_append, List.nil_append, List.length_cons,
      List.length_nil]
    norm_num
    rw [show (50 : Nat) = 49 + 1 from rfl, xirrLoop_stop]
    · norm_num
    · rw [hfv]
      norm_num
  rw [hcal]
  norm_num
/-- Witness for C4 with the concrete integer-exponent power function. -/
theorem xirr_round_trip_witness :
    |calculateXIRR intPow [⟨⟨2023, 0, 1⟩, -100000⟩] 110000 ⟨2024, 0, 1⟩ - 10| ≤ 1 / 2 :=
  xirr_round_trip intPow (fun x => by simp [intPow]) (fun x => by simp [intPow])
/-- Helper: a zero derivative (the JS non-finite newRate case) aborts the loop. -/
theorem xirrLoop_abort (powFn : ℚ → ℚ → ℚ) (flows : List CashFlow) (first : HDate)
    (fuel : Nat) (rate : ℚ) (h : ¬|(xirrF powFn flows first rate).1| < 1)
    (h2 : (xirrF powFn flows first rate).2 = 0) :
    xirrLoop powFn flows first (fuel + 1) rate = none := by
  simp [xirrLoop, h, h2]

/-- Helper: one Newton update when neither stopping condition fires. -/
theorem xirrLoop_step (powFn : ℚ → ℚ → ℚ) (flows : List CashFlow) (first : HDate)
    (fuel : Nat) (rate : ℚ) (h : ¬|(xirrF powFn flows first rate).1| < 1)
    (h2 : (xirrF powFn flows first rate).2 ≠ 0) :
    xirrLoop powFn flows first (fuel + 1) rate =
      xirrLoop powFn flows first fuel
        (rate - (xirrF powFn flows first rate).1 / (xirrF powFn flows first rate).2) := by
  simp [xirrLoop, h, h2]

/-- Helper: running the loop k more steps from the initial guess lands on the
k-th unconditional Newton iterate, provided no earlier step stopped. -/
theorem xirrLoop_shift (powFn : ℚ → ℚ → ℚ) (flows : List CashFlow) (first : HDate)
    (k fuel : Nat)
    (hpre : ∀ j < k, ¬|(xirrF powFn flows first (xirrRates powFn flows first j)).1| < 1 ∧
      (xirrF powFn flows first (xirrRates powFn flows first j)).2 ≠ 0) :
    xirrLoop powFn flows first (k + fuel) (xirrRates powFn flows first 0) =
      xirrLoop powFn flows first fuel (xirrRates powFn flows first k) := by
  induction k generalizing fuel with
  | zero => rw [Nat.zero_add]
  | succ k ih =>
    have hk := hpre k (Nat.lt_succ_self k)
    have hstep : xirrLoop powFn flows first (fuel + 1) (xirrRates powFn flows first k) =
        xirrLoop powFn flows first fuel (xirrRates powFn flows first (k + 1)) := by
      rw [xirrLoop_step powFn flows first fuel _ hk.1 hk.2]
      rfl
    calc xirrLoop powFn flows first (k + 1 + fuel) (xirrRates powFn flows first 0)
        = xirrLoop powFn flows first (k + (fuel + 1)) (xirrRates powFn flows first 0) := by
          rw [show k + 1 + fuel = k + (fuel + 1) by omega]
      _ = xirrLoop powFn flows first (fuel + 1) (xirrRates powFn flows first k) :=
          ih (fuel + 1) (fun j hj => hpre j (by omega))
      _ = xirrLoop powFn flows first fuel (xirrRates powFn flows first (k + 1)) := hstep

/-- Helper: the 0-th Newton iterate is the initial guess 0.1. -/
theorem xirrRates_zero (powFn : ℚ → ℚ → ℚ) (flows : List CashFlow) (first : HDate) :
    xirrRates powFn flows first 0 = 1 / 10 := rfl

/-- Helper: calculateXIRR on a non-empty transaction list runs the 50-step
Newton loop over the flows with the appended terminal inflow. -/
theorem calculateXIRR_cons_eq (powFn : ℚ → ℚ → ℚ) (t : CashFlow) (ts : List CashFlow)
    (currentValue : ℚ) (valuationDate : HDate) :
    calculateXIRR powFn (t :: ts) currentValue valuationDate =
      match xirrLoop powFn ((t :: ts) ++ [⟨valuationDate, currentValue⟩]) t.date 50 (1 / 10) with
      | none => 0
      | some r => r * 100 := by
  simp only [calculateXIRR]
  rw [if_neg (by simp)]
  rfl
/-- C6: calculateXIRR returns 0 when the appended flow list has fewer than 2
flows (empty transactions), and 0 when some reachable iteration has a zero
derivative (the JS non-finite/NaN newRate abort); otherwise it runs at most 50
Newton iterations from the 0.1 guess, stops early at the first iterate whose
absolute function value is below 1 and returns that rate × 100, or returns the
50th iterate × 100 when no stop occurs. -/
theorem calculateXIRR_control (powFn : ℚ → ℚ → ℚ) (txs : List CashFlow)
    (currentValue : ℚ) (valuationDate : HDate) :
    (txs = [] → calculateXIRR powFn txs currentValue valuationDate = 0) ∧
    (∀ k : Nat, k < 50 →
      (∀ j < k, ¬|(xirrF powFn (txs ++ [⟨valuationDate, currentValue⟩])
            ((txs.headD ⟨valuationDate, currentValue⟩).date)
            (xirrRates powFn (txs ++ [⟨valuationDate, currentValue⟩])
              ((txs.headD ⟨valuationDate, currentValue⟩).date) j)).1| < 1 ∧
        (xirrF powFn (txs ++ [⟨valuationDate, currentValue⟩])
            ((txs.headD ⟨valuationDate, currentValue⟩).date)
            (xirrRates powFn (txs ++ [⟨valuationDate, currentValue⟩])
              ((txs.headD ⟨valuationDate, currentValue⟩).date) j)).2 ≠ 0) →
      ¬|(xirrF powFn (txs ++ [⟨valuationDate, currentValue⟩])
            ((txs.headD ⟨valuationDate, currentValue⟩).date)
            (xirrRates powFn (txs ++ [⟨valuationDate, currentValue⟩])
              ((txs.headD ⟨valuationDate, currentValue⟩).date) k)).1| < 1 →
      (xirrF powFn (txs ++ [⟨valuationDate, currentValue⟩])
            ((txs.headD ⟨valuationDate, currentValue⟩).date)
            (xirrRates powFn (txs ++ [⟨valuationDate, currentValue⟩])
              ((txs.headD ⟨valuationDate, currentValue⟩).date) k)).2 = 0 →
      calculateXIRR powFn txs currentValue valuationDate = 0) ∧
    (∀ k : Nat, k < 50 → txs ≠ [] →
      (∀ j < k, ¬|(xirrF powFn (txs ++ [⟨valuationDate, currentValue⟩])
            ((txs.headD ⟨valuationDate, currentValue⟩).date)
            (xirrRates powFn (txs ++ [⟨valuationDate, currentValue⟩])
              ((txs.headD ⟨valuationDate, currentValue⟩).date) j)).1| < 1 ∧
        (xirrF powFn (txs ++ [⟨valuationDate, currentValue⟩])
            ((txs.headD ⟨valuationDate, currentValue⟩).date)
            (xirrRates powFn (txs ++ [⟨valuationDate, currentValue⟩])
              ((txs.headD ⟨valuationDate, currentValue⟩).date) j)).2 ≠ 0) →
      |(xirrF powFn (txs ++ [⟨valuationDate, currentValue⟩])
            ((txs.headD ⟨valuationDate, currentValue⟩).date)
            (xirrRates powFn (txs ++ [⟨valuationDate, currentValue⟩])
              ((txs.headD ⟨valuationDate, currentValue⟩).date) k)).1| < 1 →
      calculateXIRR powFn txs currentValue valuationDate =
        xirrRates powFn (txs ++ [⟨valuationDate, currentValue⟩])
          ((txs.headD ⟨valuationDate, currentValue⟩).date) k * 100) ∧
    (txs ≠ [] →
      (∀ j < 50, ¬|(xirrF powFn (txs ++ [⟨valuationDate, currentValue⟩])
            ((txs.headD ⟨valuationDate, currentValue⟩).date)
            (xirrRates powFn (txs ++ [⟨valuationDate, currentValue⟩])
              ((txs.headD ⟨valuationDate, currentValue⟩).date) j)).1| < 1 ∧
        (xirrF powFn (txs ++ [⟨valuationDate, currentValue⟩])
            ((txs.headD ⟨valuationDate, currentValue⟩).date)
            (xirrRates powFn (txs ++ [⟨valuationDate, currentValue⟩])
              ((txs.headD ⟨valuationDate, currentValue⟩).date) j)).2 ≠ 0) →
      calculateXIRR powFn txs currentValue valuationDate =
        xirrRates powFn (txs ++ [⟨valuationDate, currentValue⟩])
          ((txs.headD ⟨valuationDate, currentValue⟩).date) 50 * 100) := by
  refine ⟨?_, ?_, ?_, ?_⟩
  · intro h
    subst h
    rfl
  · intro k hk hpre hstop habort
    cases txs with
    | nil => rfl
    | cons t ts =>
      simp only [List.cons_append, List.headD_cons] at hpre hstop habort
      rw [calculateXIRR_cons_eq]
      simp only [List.cons_append]
      rw [← xirrRates_zero powFn (t :: (ts ++ [⟨valuationDate, currentValue⟩])) t.date]
      rw [show (50 : Nat) = k + (50 - k) by omega]
      rw [xirrLoop_shift powFn _ _ k (50 - k) hpre]
      rw [show 50 - k = 50 - k - 1 + 1 by omega]
      rw [xirrLoop_abort powFn _ _ _ _ hstop habort]
  · intro k hk hne hpre hstop
    cases txs with
    | nil => exact absurd rfl hne
    | cons t ts =>
      simp only [List.cons_append, List.headD_cons] at hpre hstop ⊢
      rw [calculateXIRR_cons_eq]
      simp only [List.cons_append]
      rw [← xirrRates_zero powFn (t :: (ts ++ [⟨valuationDate, currentValue⟩])) t.date]
      rw [show (50 : Nat) = k + (50 - k) by omega]
      rw [xirrLoop_shift powFn _ _ k (50 - k) hpre]
      rw [show 50 - k = 50 - k - 1 + 1 by omega]
      rw [xirrLoop_stop powFn _ _ _ _ hstop]
  · intro hne hpre
    cases txs with
    | nil => exact absurd rfl hne
    | cons t ts =>
      simp only [List.cons_append, List.headD_cons] at hpre ⊢
      rw [calculateXIRR_cons_eq]
      simp only [List.cons_append]
      rw [← xirrRates_zero powFn (t :: (ts ++ [⟨valuationDate, currentValue⟩])) t.date]
      rw [show (50 : Nat) = 50 + 0 by omega]
      rw [xirrLoop_shift powFn _ _ 50 0 hpre]
      simp [xirrLoop]
/-- Witness for C6: the short-flow path returns 0 and an immediately-converging
concrete input stops at the first iterate, returning 10. -/
theorem calculateXIRR_control_witness :
    calculateXIRR intPow [] (5 : ℚ) ⟨2023, 0, 1⟩ = 0 ∧
    calculateXIRR intPow [⟨⟨2023, 0, 1⟩, -200000⟩] 220000 ⟨2024, 0, 1⟩ = 10 := by
  constructor
  · exact (calculateXIRR_control intPow [] 5 ⟨2023, 0, 1⟩).1 rfl
  · have h := (calculateXIRR_control intPow [⟨⟨2023, 0, 1⟩, -200000⟩] 220000 ⟨2024, 0, 1⟩).2.2.1
      0 (by norm_num) (by simp) (fun j hj => absurd hj (Nat.not_lt_zero j))
      (by with_unfolding_all decide)
    rw [h]
    with_unfolding_all decide
/-- Helper: Math.round bounds: x - 1/2 < round x ≤ x + 1/2. -/
theorem jsRound_bounds (x : ℚ) : (jsRound x : ℚ) ≤ x + 1 / 2 ∧ x - 1 / 2 < (jsRound x : ℚ) := by
  constructor
  · exact Int.floor_le (x + 1 / 2)
  · have h := Int.lt_floor_add_one (x + 1 / 2)
    have : ((⌊x + 1 / 2⌋ : ℤ) : ℚ) + 1 > x + 1 / 2 := by push_cast at h ⊢; linarith
    unfold jsRound
    linarith

/-- Helper: independently rounding two pairs with equal sums leaves the rounded
sums within 1 of each other. -/
theorem jsRound_sum_bound (a c d r : ℚ) (h : a + c = d + r) :
    |jsRound a + jsRound c - (jsRound d + jsRound r)| ≤ 1 := by
  obtain ⟨ha1, ha2⟩ := jsRound_bounds a
  obtain ⟨hc1, hc2⟩ := jsRound_bounds c
  obtain ⟨hd1, hd2⟩ := jsRound_bounds d
  obtain ⟨hr1, hr2⟩ := jsRound_bounds r
  have h1 : ((jsRound a + jsRound c - (jsRound d + jsRound r) : ℤ) : ℚ) < 2 := by
    push_cast
    linarith
  have h2 : (-2 : ℚ) < ((jsRound a + jsRound c - (jsRound d + jsRound r) : ℤ) : ℚ) := by
    push_cast
    linarith
  have h1' : (jsRound a + jsRound c - (jsRound d + jsRound r) : ℤ) < 2 := by exact_mod_cast h1
  have h2' : (-2 : ℤ) < (jsRound a + jsRound c - (jsRound d + jsRound r) : ℤ) := by exact_mod_cast h2
  rw [abs_le]
  omega

/-- Helper: summed actual plus counterpart contributions equal summed direct
plus regular scenario values, exactly, before rounding. -/
theorem contrib_sum_eq (monthEnd : HDate) (l : List PortState) :
    (l.map (actualContrib monthEnd)).sum + (l.map (counterContrib monthEnd)).sum =
      (l.map (fun p => (scenarioVals monthEnd p).1)).sum +
        (l.map (fun p => (scenarioVals monthEnd p).2)).sum := by
  induction l with
  | nil => simp
  | cons p l ih =>
    simp only [List.map_cons, List.sum_cons]
    have ha : actualContrib monthEnd p =
        if p.isDirect then (scenarioVals monthEnd p).1 else (scenarioVals monthEnd p).2 := rfl
    have hc : counterContrib monthEnd p =
        if p.isDirect then (scenarioVals monthEnd p).2 else (scenarioVals monthEnd p).1 := rfl
    rw [ha, hc]
    by_cases hd : p.isDirect
    · simp only [hd, if_true]
      linarith
    · simp only [hd, Bool.false_eq_true, if_false]
      linarith

/-- Helper: every snapshot emitted by the monthly loop satisfies the ±1
rounded-sum bound. -/
theorem backtestGo_bound (now : HDate) (bench : List NAVData) (hb : Bool) :
    ∀ (fuel : Nat) (cursor : HDate) (portfolio : List PortState) (bu : ℚ)
      (acc : List ChartDataPoint),
    (∀ pt ∈ acc, |pt.actualValue + pt.counterpartValue - (pt.directValue + pt.regularValue)| ≤ 1) →
    ∀ pt ∈ backtestGo now bench hb fuel cursor portfolio bu acc,
      |pt.actualValue + pt.counterpartValue - (pt.directValue + pt.regularValue)| ≤ 1 := by
  intro fuel
  induction fuel with
  | zero =>
    intro cursor portfolio bu acc hacc pt hpt
    exact hacc pt hpt
  | succ fuel ih =>
    intro cursor portfolio bu acc hacc pt hpt
    rw [backtestGo] at hpt
    by_cases hc : rataDie cursor ≤ rataDie now
    · rw [if_pos hc] at hpt
      refine ih _ _ _ _ ?_ pt hpt
      intro q hq
      by_cases hti : ((portfolio.map (buyStep cursor.y cursor.m now bench hb)).map
          Prod.fst |>.map PortState.totalInvested).sum > 0
      · rw [if_pos hti] at hq
        rcases List.mem_append.mp hq with hq | hq
        · exact hacc q hq
        · rcases List.mem_singleton.mp hq with rfl
          exact jsRound_sum_bound _ _ _ _ (by
            have := contrib_sum_eq
              (if rataDie now < rataDie ⟨cursor.y, cursor.m,
                  monthDays (isLeap cursor.y) cursor.m⟩ then now
                else ⟨cursor.y, cursor.m, monthDays (isLeap cursor.y) cursor.m⟩)
              ((portfolio.map (buyStep cursor.y cursor.m now bench hb)).map Prod.fst)
            linarith)
      · rw [if_neg hti] at hq
        exact hacc q hq
    · rw [if_neg hc] at hpt
      exact hacc pt hpt
/-- C7 (amended): per investment, the contribution to the actual total is the
direct-scenario value when isDirect and the regular-scenario value otherwise,
and the counterpart contribution is the complementary one (so the unrounded
totals satisfy actual + counterpart = direct + regular exactly); each emitted
snapshot's independently rounded fields satisfy
|actualValue + counterpartValue - (directValue + regularValue)| ≤ 1. -/
theorem backtest_scenario_consistency (investments : List Investment)
    (benchmarkHistory : Option (List NAVData)) (now : HDate) :
    (∀ (monthEnd : HDate) (p : PortState), p.isDirect = true →
      actualContrib monthEnd p = (scenarioVals monthEnd p).1 ∧
      counterContrib monthEnd p = (scenarioVals monthEnd p).2) ∧
    (∀ (monthEnd : HDate) (p : PortState), p.isDirect = false →
      actualContrib monthEnd p = (scenarioVals monthEnd p).2 ∧
      counterContrib monthEnd p = (scenarioVals monthEnd p).1) ∧
    (∀ pt ∈ generateBacktestData investments benchmarkHistory now,
      |pt.actualValue + pt.counterpartValue - (pt.directValue + pt.regularValue)| ≤ 1) := by
  refine ⟨?_, ?_, ?_⟩
  · intro monthEnd p hd
    constructor
    · show (if p.isDirect then (scenarioVals monthEnd p).1 else (scenarioVals monthEnd p).2) = _
      rw [if_pos (by simp [hd])]
    · show (if p.isDirect then (scenarioVals monthEnd p).2 else (scenarioVals monthEnd p).1) = _
      rw [if_pos (by simp [hd])]
  · intro monthEnd p hd
    constructor
    · show (if p.isDirect then (scenarioVals monthEnd p).1 else (scenarioVals monthEnd p).2) = _
      rw [if_neg (by simp [hd])]
    · show (if p.isDirect then (scenarioVals monthEnd p).2 else (scenarioVals monthEnd p).1) = _
      rw [if_neg (by simp [hd])]
  · intro pt hpt
    rw [generateBacktestData] at hpt
    by_cases hinv : investments = []
    · rw [if_pos hinv] at hpt
      exact absurd hpt (List.not_mem_nil pt)
    · rw [if_neg hinv] at hpt
      rcases hact : investments.filter
          (fun i => decide (i.navHistory ≠ [] ∨ i.counterpartNavHistory.getD [] ≠ [])) with
        _ | ⟨a0, arest⟩
      · rw [hact] at hpt
        exact absurd hpt (List.not_mem_nil pt)
      · rw [hact] at hpt
        exact backtestGo_bound now _ _ _ _ _ _ _ (by simp) pt hpt
/-- Witness for C7 at a concrete direct investment and a concrete generated
snapshot. -/
theorem backtest_scenario_consistency_witness :
    actualContrib ⟨2023, 0, 31⟩
        ⟨true, InvestmentType.LUMPSUM, 1, ⟨2023, 0, 5⟩, none,
          [⟨⟨2023, 0, 20⟩, 1⟩, ⟨⟨2023, 0, 10⟩, 5 / 2⟩], none, 2 / 5, 0, 1, true⟩ =
      (scenarioVals ⟨2023, 0, 31⟩
        ⟨true, InvestmentType.LUMPSUM, 1, ⟨2023, 0, 5⟩, none,
          [⟨⟨2023, 0, 20⟩, 1⟩, ⟨⟨2023, 0, 10⟩, 5 / 2⟩], none, 2 / 5, 0, 1, true⟩).1 ∧
    |(⟨⟨2023, 0, 31⟩, 1, 0, 0, 0, 2, none⟩ : ChartDataPoint).actualValue +
        (⟨⟨2023, 0, 31⟩, 1, 0, 0, 0, 2, none⟩ : ChartDataPoint).counterpartValue -
        ((⟨⟨2023, 0, 31⟩, 1, 0, 0, 0, 2, none⟩ : ChartDataPoint).directValue +
          (⟨⟨2023, 0, 31⟩, 1, 0, 0, 0, 2, none⟩ : ChartDataPoint).regularValue)| ≤ 1 :=
  ⟨((backtest_scenario_consistency [] none ⟨2023, 0, 1⟩).1 ⟨2023, 0, 31⟩ _ rfl).1,
    (backtest_scenario_consistency
      [⟨"a", true, [⟨⟨2023, 0, 20⟩, 1⟩, ⟨⟨2023, 0, 10⟩, 5 / 2⟩], none,
          InvestmentType.LUMPSUM, 1, ⟨2023, 0, 5⟩, none⟩,
        ⟨"b", false, [], some [⟨⟨2023, 0, 20⟩, 1⟩, ⟨⟨2023, 0, 10⟩, 5 / 2⟩],
          InvestmentType.LUMPSUM, 1, ⟨2023, 0, 5⟩, none⟩]
      none ⟨2023, 0, 31⟩).2.2 ⟨⟨2023, 0, 31⟩, 1, 0, 0, 0, 2, none⟩
      (by with_unfolding_all decide)⟩

/-- Counterexample to C7's claimed exact snapshot identity: a concrete two-
investment portfolio emits a snapshot with actualValue + counterpartValue =
0 ≠ 1 = directValue + regularValue, because the four totals are rounded
independently. -/
theorem backtest_rounding_cex :
    ((generateBacktestData
        [⟨"a", true, [⟨⟨2023, 0, 20⟩, 1⟩, ⟨⟨2023, 0, 10⟩, 5 / 2⟩], none,
            InvestmentType.LUMPSUM, 1, ⟨2023, 0, 5⟩, none⟩,
          ⟨"b", false, [], some [⟨⟨2023, 0, 20⟩, 1⟩, ⟨⟨2023, 0, 10⟩, 5 / 2⟩],
            InvestmentType.LUMPSUM, 1, ⟨2023, 0, 5⟩, none⟩]
        none ⟨2023, 0, 31⟩).headD ⟨⟨0, 0, 0⟩, 0, 0, 0, 0, 0, none⟩).actualValue +
      ((generateBacktestData
        [⟨"a", true, [⟨⟨2023, 0, 20⟩, 1⟩, ⟨⟨2023, 0, 10⟩, 5 / 2⟩], none,
            InvestmentType.LUMPSUM, 1, ⟨2023, 0, 5⟩, none⟩,
          ⟨"b", false, [], some [⟨⟨2023, 0, 20⟩, 1⟩, ⟨⟨2023, 0, 10⟩, 5 / 2⟩],
            InvestmentType.LUMPSUM, 1, ⟨2023, 0, 5⟩, none⟩]
        none ⟨2023, 0, 31⟩).headD ⟨⟨0, 0, 0⟩, 0, 0, 0, 0, 0, none⟩).counterpartValue ≠
      ((generateBacktestData
        [⟨"a", true, [⟨⟨2023, 0, 20⟩, 1⟩, ⟨⟨2023, 0, 10⟩, 5 / 2⟩], none,
            InvestmentType.LUMPSUM, 1, ⟨2023, 0, 5⟩, none⟩,
          ⟨"b", false, [], some [⟨⟨2023, 0, 20⟩, 1⟩, ⟨⟨2023, 0, 10⟩, 5 / 2⟩],
            InvestmentType.LUMPSUM, 1, ⟨2023, 0, 5⟩, none⟩]
        none ⟨2023, 0, 31⟩).headD ⟨⟨0, 0, 0⟩, 0, 0, 0, 0, 0, none⟩).directValue +
      ((generateBacktestData
        [⟨"a", true, [⟨⟨2023, 0, 20⟩, 1⟩, ⟨⟨2023, 0, 10⟩, 5 / 2⟩], none,
            InvestmentType.LUMPSUM, 1, ⟨2023, 0, 5⟩, none⟩,
          ⟨"b", false, [], some [⟨⟨2023, 0, 20⟩, 1⟩, ⟨⟨2023, 0, 10⟩, 5 / 2⟩],
            InvestmentType.LUMPSUM, 1, ⟨2023, 0, 5⟩, none⟩]
        none ⟨2023, 0, 31⟩).headD ⟨⟨0, 0, 0⟩, 0, 0, 0, 0, 0, none⟩).regularValue := by
  with_unfolding_all decide
/-- Helper: Math.round is monotone. -/
theorem jsRound_mono {a b : ℚ} (h : a ≤ b) : jsRound a ≤ jsRound b :=
  Int.floor_le_floor (by linarith)

/-- Helper: Math.round 1 = 1. -/
theorem jsRound_one : jsRound 1 = 1 := by
  unfold jsRound
  rw [Int.floor_eq_iff]
  norm_num
/-- Helper: a buy step preserves the amount and either keeps or increases the
per-investment invested total by exactly the amount. -/
theorem buyStep_fields (y m : Int) (now : HDate) (bh : List NAVData) (hb : Bool) (p : PortState) :
    (buyStep y m now bh hb p).1.amount = p.amount ∧
    ((buyStep y m now bh hb p).1.totalInvested = p.totalInvested ∨
      (buyStep y m now bh hb p).1.totalInvested = p.totalInvested + p.amount) := by
  unfold buyStep
  cases paymentDateFor y m now p
  · simp
  · simp

/-- Helper: a positive sum of per-investment totals that are each 0 or ≥ 1 is
itself ≥ 1. -/
theorem sum_invested_ge_one (l : List PortState)
    (h : ∀ p ∈ l, 0 ≤ p.totalInvested ∧ (p.totalInvested = 0 ∨ 1 ≤ p.totalInvested))
    (hpos : 0 < (l.map PortState.totalInvested).sum) :
    1 ≤ (l.map PortState.totalInvested).sum := by
  induction l with
  | nil => simp at hpos
  | cons p l ih =>
    simp only [List.map_cons, List.sum_cons] at hpos ⊢
    have hp := h p (List.mem_cons_self p l)
    have hl : ∀ q ∈ l, 0 ≤ q.totalInvested ∧ (q.totalInvested = 0 ∨ 1 ≤ q.totalInvested) :=
      fun q hq => h q (List.mem_cons_of_mem p hq)
    have hlnn : 0 ≤ (l.map PortState.totalInvested).sum := by
      refine List.sum_nonneg ?_
      intro x hx
      rcases List.mem_map.mp hx with ⟨q, hq, rfl⟩
      exact (hl q hq).1
    rcases hp.2 with h0 | h1
    · have : 0 < (l.map PortState.totalInvested).sum := by
        rw [h0] at hpos
        linarith
      have := ih hl this
      linarith
    · linarith

/-- Helper: the monthly loop's emitted investedAmount sequence is
non-decreasing and every emitted value is ≥ 1, when every amount is ≥ 1. -/
theorem backtestGo_invested (now : HDate) (bench : List NAVData) (hb : Bool) :
    ∀ (fuel : Nat) (cursor : HDate) (portfolio : List PortState) (bu : ℚ)
      (acc : List ChartDataPoint),
    (∀ p ∈ portfolio, 1 ≤ p.amount ∧ 0 ≤ p.totalInvested ∧
      (p.totalInvested = 0 ∨ 1 ≤ p.totalInvested)) →
    List.Chain' (fun a b => a.investedAmount ≤ b.investedAmount) acc →
    (∀ pt ∈ acc, 1 ≤ pt.investedAmount) →
    (∀ pt ∈ acc, pt.investedAmount ≤ jsRound ((portfolio.map PortState.totalInvested).sum)) →
    List.Chain' (fun a b => a.investedAmount ≤ b.investedAmount)
      (backtestGo now bench hb fuel cursor portfolio bu acc) ∧
    (∀ pt ∈ backtestGo now bench hb fuel cursor portfolio bu acc, 1 ≤ pt.investedAmount) := by
  intro fuel
  induction fuel with
  | zero =>
    intro cursor portfolio bu acc hport hchain hge1 hlast
    exact ⟨hchain, hge1⟩
  | succ fuel ih =>
    intro cursor portfolio bu acc hport hchain hge1 hlast
    simp only [backtestGo]
    by_cases hc : rataDie cursor ≤ rataDie now
    · rw [if_pos hc]
      have hport' : ∀ p ∈ (portfolio.map (buyStep cursor.y cursor.m now bench hb)).map Prod.fst,
          1 ≤ p.amount ∧ 0 ≤ p.totalInvested ∧ (p.totalInvested = 0 ∨ 1 ≤ p.totalInvested) := by
        intro q hq
        rcases List.mem_map.mp hq with ⟨pair, hpair, rfl⟩
        rcases List.mem_map.mp hpair with ⟨p, hp, rfl⟩
        obtain ⟨hamt, hti⟩ := buyStep_fields cursor.y cursor.m now bench hb p
        obtain ⟨h1, h2, h3⟩ := hport p hp
        refine ⟨by rw [hamt]; exact h1, ?_, ?_⟩
        · rcases hti with h | h <;> rw [h] <;> linarith
        · rcases hti with h | h
          · rw [h]; exact h3
          · rw [h]
            right
            rcases h3 with h0 | hge <;> linarith
      have hsumle : (portfolio.map PortState.totalInvested).sum ≤
          (((portfolio.map (buyStep cursor.y cursor.m now bench hb)).map Prod.fst).map
            PortState.totalInvested).sum := by
        rw [List.map_map, List.map_map]
        refine List.sum_le_sum ?_
        intro p hp
        obtain ⟨hamt, hti⟩ := buyStep_fields cursor.y cursor.m now bench hb p
        obtain ⟨h1, _, _⟩ := hport p hp
        simp only [Function.comp_apply]
        rcases hti with h | h
        · rw [h]
        · rw [h]
          linarith
      have hlast' : ∀ pt ∈ acc, pt.investedAmount ≤
          jsRound ((((portfolio.map (buyStep cursor.y cursor.m now bench hb)).map Prod.fst).map
            PortState.totalInvested).sum) :=
        fun pt hpt => le_trans (hlast pt hpt) (jsRound_mono hsumle)
      by_cases hti : ((((portfolio.map (buyStep cursor.y cursor.m now bench hb)).map
          Prod.fst).map PortState.totalInvested).sum) > 0
      · rw [if_pos hti]
        refine ih (addMonth cursor) _ _ _ hport' ?_ ?_ ?_
        · rw [List.chain'_append]
          refine ⟨hchain, List.chain'_singleton _, ?_⟩
          intro x hx y hy
          rcases List.mem_getLast?_eq_getLast hx with ⟨hne, rfl⟩
          simp only [List.head?_cons, Option.mem_some_iff] at hy
          subst hy
          exact hlast' _ (List.getLast_mem hne)
        · intro pt hpt
          rcases List.mem_append.mp hpt with hpt | hpt
          · exact hge1 pt hpt
          · rcases List.mem_singleton.mp hpt with rfl
            have hge : 1 ≤ ((((portfolio.map (buyStep cursor.y cursor.m now bench hb)).map
                Prod.fst).map PortState.totalInvested).sum) :=
              sum_invested_ge_one _ (fun p hp => (hport' p hp).2) hti
            have := jsRound_mono hge
            rw [jsRound_one] at this
            exact this
        · intro pt hpt
          rcases List.mem_append.mp hpt with hpt | hpt
          · exact hlast' pt hpt
          · rcases List.mem_singleton.mp hpt with rfl
            exact le_refl _
      · rw [if_neg hti]
        exact ih (addMonth cursor) _ _ _ hport' hchain hge1 hlast'
    · rw [if_neg hc]
      exact ⟨hchain, hge1⟩
/-- C10 (amended): when every investment's amount is at least 1 currency unit,
the snapshots emitted by generateBacktestData have non-decreasing
investedAmount and every emitted snapshot (the first in particular) has
investedAmount ≥ 1, hence strictly positive. -/
theorem backtest_invested_monotone (investments : List Investment)
    (benchmarkHistory : Option (List NAVData)) (now : HDate)
    (hamt : ∀ i ∈ investments, 1 ≤ i.amount) :
    List.Chain' (fun a b => a.investedAmount ≤ b.investedAmount)
      (generateBacktestData investments benchmarkHistory now) ∧
    ∀ pt ∈ generateBacktestData investments benchmarkHistory now, 1 ≤ pt.investedAmount := by
  by_cases hinv : investments = []
  · subst hinv
    exact ⟨List.chain'_nil, by simp [generateBacktestData]⟩
  · rcases hact : investments.filter
        (fun i => decide (i.navHistory ≠ [] ∨ i.counterpartNavHistory.getD [] ≠ [])) with
      _ | ⟨a0, arest⟩
    · constructor
      · rw [generateBacktestData, if_neg hinv, hact]
        exact List.chain'_nil
      · intro pt hpt
        rw [generateBacktestData, if_neg hinv, hact] at hpt
        exact absurd hpt (List.not_mem_nil pt)
    · have hport : ∀ p ∈ (a0 :: arest).map initPortState,
          1 ≤ p.amount ∧ 0 ≤ p.totalInvested ∧ (p.totalInvested = 0 ∨ 1 ≤ p.totalInvested) := by
        intro p hp
        rcases List.mem_map.mp hp with ⟨i, hi, rfl⟩
        rw [← hact] at hi
        have hii : i ∈ investments := List.mem_of_mem_filter hi
        exact ⟨hamt i hii, le_refl 0, Or.inl rfl⟩
      constructor
      · rw [generateBacktestData, if_neg hinv, hact]
        exact (backtestGo_invested now _ _ _ _ _ 0 [] hport List.chain'_nil (by simp)
          (by simp)).1
      · intro pt hpt
        rw [generateBacktestData, if_neg hinv, hact] at hpt
        exact (backtestGo_invested now _ _ _ _ _ 0 [] hport List.chain'_nil (by simp)
          (by simp)).2 pt hpt

/-- Witness for C10 at a concrete single-investment input. -/
theorem backtest_invested_monotone_witness :
    List.Chain' (fun a b => a.investedAmount ≤ b.investedAmount)
      (generateBacktestData
        [⟨"c", true, [⟨⟨2023, 0, 1⟩, 10⟩], none, InvestmentType.LUMPSUM, 100, ⟨2023, 0, 5⟩, none⟩]
        none ⟨2023, 1, 28⟩) ∧
    1 ≤ ((generateBacktestData
        [⟨"c", true, [⟨⟨2023, 0, 1⟩, 10⟩], none, InvestmentType.LUMPSUM, 100, ⟨2023, 0, 5⟩, none⟩]
        none ⟨2023, 1, 28⟩).headD ⟨⟨0, 0, 0⟩, 0, 0, 0, 0, 1, none⟩).investedAmount :=
  ⟨(backtest_invested_monotone
      [⟨"c", true, [⟨⟨2023, 0, 1⟩, 10⟩], none, InvestmentType.LUMPSUM, 100, ⟨2023, 0, 5⟩, none⟩]
      none ⟨2023, 1, 28⟩
      (by intro i hi; rcases List.mem_singleton.mp hi with rfl; norm_num)).1,
   (backtest_invested_monotone
      [⟨"c", true, [⟨⟨2023, 0, 1⟩, 10⟩], none, InvestmentType.LUMPSUM, 100, ⟨2023, 0, 5⟩, none⟩]
      none ⟨2023, 1, 28⟩
      (by intro i hi; rcases List.mem_singleton.mp hi with rfl; norm_num)).2 _
      (by with_unfolding_all decide)⟩

/-- Counterexample to C10 as stated for all inputs: a lumpsum amount of 0.4
passes the positive-total emission guard but rounds to an emitted first
snapshot with investedAmount = 0, not strictly positive. -/
theorem backtest_invested_zero_cex :
    ((generateBacktestData
        [⟨"c", true, [⟨⟨2023, 0, 1⟩, 10⟩], none, InvestmentType.LUMPSUM, 2 / 5, ⟨2023, 0, 5⟩, none⟩]
        none ⟨2023, 0, 31⟩).headD ⟨⟨0, 0, 0⟩, 0, 0, 0, 0, 1, none⟩).investedAmount = 0 ∧
    generateBacktestData
        [⟨"c", true, [⟨⟨2023, 0, 1⟩, 10⟩], none, InvestmentType.LUMPSUM, 2 / 5, ⟨2023, 0, 5⟩, none⟩]
        none ⟨2023, 0, 31⟩ ≠ [] := by
  with_unfolding_all decide

end MFA
